import Mathlib

/-!
Verification of the session-identity subsystem of `src/wolfram_mathematica.py`
(an MCP server exposing Wolfram Language sessions).

The registry operations `create_mathematica_session`, `execute_mathematica_code`
and `close_mathematica_session` are embedded from the Python source.  The
external collaborators (the `wolframclient` backend and the process
environment) are parameters: each backend call's outcome is an explicit
argument, each operation returns, besides its result and the new registry
state, the list of backend events it performed, in program order.

The token codec (`AnimalIdGenerator`, imported by the source from the
`animalid` module, whose code is not in the repository) is modelled from the
spec: see the doc comments in namespace `AnimalIdGenerator`.
-/

namespace MathematicaMCP

/-! ### Token codec (modelled from the spec) -/

/-- Splitting a character list on a delimiter character: the pieces between
occurrences of `c`, in order.  `splitOnCharList c [] = [[]]`, matching the
usual string-split semantics where splitting the empty string yields one
empty field. -/
def splitOnCharList (c : Char) : List Char → List (List Char)
  | [] => [[]]
  | x :: xs =>
    match splitOnCharList c xs with
    | [] => [[]]
    | w :: ws => if x = c then [] :: w :: ws else (x :: w) :: ws

/-- Joining a list of character lists with a delimiter character between
consecutive pieces. -/
def joinWith (c : Char) : List (List Char) → List Char
  | [] => []
  | [w] => w
  | w :: ws => w ++ c :: joinWith c ws

namespace AnimalIdGenerator

/-- Modelled from the spec: the fixed public vocabulary of human-readable
words from which token words are drawn.  The spec fixes no particular word
list (the `animalid` module holding it is not in the repository); the words
here are the animal words appearing in the source's own examples. -/
def vocabulary : List String :=
  ["fox", "wolf", "bear", "lion", "bee", "sloth", "auk", "mole"]

/-- The vocabulary word selected by an index, reduced modulo the vocabulary
size. -/
def wordAt (i : Nat) : String :=
  vocabulary.get ⟨i % vocabulary.length, Nat.mod_lt i (by decide)⟩

/-- Modelled from the spec: `AnimalIdGenerator.generate` (the `animalid`
module is not in the repository).  Draws three random vocabulary indices
(`d1 d2 d3`, the random draws, passed explicitly), computes the checksum
word as a keyed deterministic function `kh` of the secret key and the three
leading words mapped back into the vocabulary, and joins the four words with
the delimiter. The keyed hash is an arbitrary parameter: every property
proved below holds for every deterministic keyed hash. -/
def generate (kh : String → List String → Nat) (key : String)
    (d1 d2 d3 : Nat) : String :=
  let w1 := wordAt d1
  let w2 := wordAt d2
  let w3 := wordAt d3
  let w4 := wordAt (kh key [w1, w2, w3])
  String.mk (joinWith '-' [w1.data, w2.data, w3.data, w4.data])

/-- Modelled from the spec: `AnimalIdGenerator.verify` (the `animalid`
module is not in the repository).  Parses the candidate on the delimiter,
fails closed (returns `false`) on wrong word count or a word outside the
vocabulary, and otherwise recomputes the checksum word from the leading
words and the key and compares it with the trailing word. -/
def verify (kh : String → List String → Nat) (key : String)
    (candidate : String) : Bool :=
  match splitOnCharList '-' candidate.data with
  | [c1, c2, c3, c4] =>
    let w1 := String.mk c1
    let w2 := String.mk c2
    let w3 := String.mk c3
    let w4 := String.mk c4
    if w1 ∈ vocabulary ∧ w2 ∈ vocabulary ∧ w3 ∈ vocabulary ∧ w4 ∈ vocabulary then
      wordAt (kh key [w1, w2, w3]) == w4
    else false
  | _ => false

end AnimalIdGenerator

/-! ### Startup configuration (lines 25-30 and 38-80 of the source) -/

/-- Embedding of line 25: `os.getenv("ANIMALID_SECRET_KEY",
"default-secret-key-for-dev")`.  `env` is the value of the
`ANIMALID_SECRET_KEY` process environment variable, `none` when unset. -/
def loadSecretKey (env : Option String) : String :=
  env.getD "default-secret-key-for-dev"

/-- Embedding of lines 26-29: the startup warning is printed exactly when the
loaded key equals the development default. -/
def defaultKeyWarning (env : Option String) : Bool :=
  loadSecretKey env == "default-secret-key-for-dev"

/-- The macOS candidate kernel paths (lines 47-51). -/
def darwinPaths : List String :=
  ["/Applications/Wolfram.app/Contents/MacOS/WolframKernel",
   "/Applications/Mathematica.app/Contents/MacOS/WolframKernel",
   "/Applications/Wolfram Engine.app/Contents/MacOS/WolframKernel"]

/-- The Mathematica versions probed on Windows and Linux (lines 54 and 62). -/
def kernelVersions : List String :=
  ["14.0", "13.3", "13.2", "13.1", "13.0"]

/-- Embedding of line 53: `os.environ.get("ProgramFiles", "C:\\Program
Files")`. -/
def programFilesOf (env : Option String) : String :=
  env.getD "C:\\Program Files"

/-- The Windows candidate kernel paths (lines 54-60). -/
def windowsPaths (programFiles : String) : List String :=
  kernelVersions.map fun v =>
    programFiles ++ "\\Wolfram Research\\Mathematica\\" ++ v ++ "\\WolframKernel.exe"

/-- The Linux candidate kernel paths (lines 61-65). -/
def linuxPaths : List String :=
  kernelVersions.map fun v =>
    "/usr/local/Wolfram/Mathematica/" ++ v ++ "/Executables/WolframKernel"

/-- The candidate path list built by `find_wolfram_kernel` for a given
`platform.system()` value (lines 43-65); empty for any other system. -/
def potentialPaths (system programFiles : String) : List String :=
  if system = "Darwin" then darwinPaths
  else if system = "Windows" then windowsPaths programFiles
  else if system = "Linux" then linuxPaths
  else []

/-- Embedding of `find_wolfram_kernel` (lines 38-76): returns the first
candidate path for which `os.path.exists` is true (`pathExists` embeds that
filesystem probe), and `none` when no candidate exists (the source then
prints a warning and lets `wolframclient` attempt automatic detection). -/
def find_wolfram_kernel (system programFiles : String)
    (pathExists : String → Bool) : Option String :=
  (potentialPaths system programFiles).find? pathExists

/-! ### Session registry (lines 34 and 86-190 of the source) -/

/-- Liveness of a backend session handle: the `WolframLanguageSession` object
is live until terminated. -/
inductive HState where
  | live
  | terminated
deriving DecidableEq, Repr

/-- A backend event performed by a registry operation, in program order:
constructing a `WolframLanguageSession` (line 105), `session.evaluate`
(line 149), `session.terminate` (line 184), and the map mutation
`del sessions[session_id]` (line 185). -/
inductive BEv where
  | openCall
  | evalCall (h : Nat) (code : String)
  | termCall (h : Nat)
  | removeEntry (sessionId : String)
deriving DecidableEq, Repr

/-- The error taxonomy of the source: `ValueError("Invalid session ID...")`,
`ValueError("Session ... not found ...")` and the wrapping
`RuntimeError`s, each carrying its message string. -/
inductive Err where
  | invalidToken (msg : String)
  | sessionNotFound (msg : String)
  | backendFailure (msg : String)
deriving DecidableEq, Repr

/-- The registry state: the `sessions` dict of line 34 as an association
list from session id to a handle identifier, the liveness of each handle,
and the next fresh handle identifier. -/
structure ServerState where
  sessions : List (String × Nat)
  handles : Nat → HState
  nextHandle : Nat

/-- Result of one registry operation: the returned value or raised error,
the registry state after the call, and the backend events performed. -/
structure OpResult (α : Type) where
  res : Except Err α
  st : ServerState
  tr : List BEv

/-- Python dict lookup `d.get(k)` on the association-list model. -/
def dictGet (k : String) : List (String × Nat) → Option Nat
  | [] => none
  | (k', v) :: rest => if k' = k then some v else dictGet k rest

/-- Python dict assignment `d[k] = v` on the association-list model:
replaces the entry in place when the key is present, appends otherwise. -/
def dictSet (k : String) (v : Nat) : List (String × Nat) → List (String × Nat)
  | [] => [(k, v)]
  | (k', v') :: rest => if k' = k then (k, v) :: rest else (k', v') :: dictSet k v rest

/-- Python dict deletion `del d[k]` on the association-list model: removes
the entry with key `k` (dict keys are unique, so at most one). -/
def dictDel (k : String) : List (String × Nat) → List (String × Nat)
  | [] => []
  | (k', v') :: rest => if k' = k then rest else (k', v') :: dictDel k rest

/-- Pointwise update of the handle-liveness map. -/
def updHandles (f : Nat → HState) (i : Nat) (v : HState) : Nat → HState :=
  fun j => if j = i then v else f j

/-- Embedding of `create_mathematica_session` (lines 86-109).  The freshly
generated token is `session_id` (line 102); `openRes` is the outcome of the
`WolframLanguageSession(KERNEL_PATH)` construction (line 105).  On success
the new handle is stored under the token (line 106); on failure the
exception is wrapped in a `RuntimeError` (line 109) and the map is not
touched. -/
def create_mathematica_session (session_id : String)
    (openRes : Except String Unit) (s : ServerState) : OpResult String :=
  match openRes with
  | .error e =>
    ⟨.error (.backendFailure ("Failed to create Wolfram Language session: " ++ e)),
     s, [.openCall]⟩
  | .ok _ =>
    ⟨.ok ("Session created successfully. Your session ID is: " ++ session_id),
     { sessions := dictSet session_id s.nextHandle s.sessions,
       handles := updHandles s.handles s.nextHandle .live,
       nextHandle := s.nextHandle + 1 },
     [.openCall]⟩

/-- Embedding of `execute_mathematica_code` (lines 112-154).  `ver` is
`id_generator.verify`; `evalRes` gives the outcome of
`session.evaluate(wlexpr(code))` for each handle and code string. -/
def execute_mathematica_code (ver : String → Bool)
    (evalRes : Nat → String → Except String String)
    (session_id code : String) (s : ServerState) : OpResult String :=
  if ver session_id = false then
    ⟨.error (.invalidToken "Invalid session ID. It might be malformed or tampered with."),
     s, []⟩
  else
    match dictGet session_id s.sessions with
    | none =>
      ⟨.error (.sessionNotFound
          ("Session with ID '" ++ session_id ++ "' not found or has been closed.")),
       s, []⟩
    | some h =>
      match evalRes h code with
      | .ok r => ⟨.ok r, s, [.evalCall h code]⟩
      | .error e =>
        ⟨.error (.backendFailure
            ("An error occurred during execution in session '" ++ session_id ++ "': " ++ e)),
         s, [.evalCall h code]⟩

/-- The registry state at the point inside `close_mathematica_session` where
`session.terminate()` (line 184) has returned successfully and
`del sessions[session_id]` (line 185) has not yet run.  The source holds no
lock, and `terminate` is a blocking external call, so this intermediate
state is observable to concurrently running handlers. -/
def closeMidState (h : Nat) (s : ServerState) : ServerState :=
  { s with handles := updHandles s.handles h .terminated }

/-- Embedding of `close_mathematica_session` (lines 157-190).  `termRes`
gives the outcome of `session.terminate()` per handle; `failState` is the
liveness the backend leaves the handle in when `terminate` raises (the
backend contract does not fix it, so it is a parameter).  On terminate
success the handle is terminated first and the map entry removed second
(lines 184-185); on terminate failure the exception is wrapped (line 188)
and the map entry is not removed. -/
def close_mathematica_session (ver : String → Bool)
    (termRes : Nat → Except String Unit) (failState : HState)
    (session_id : String) (s : ServerState) : OpResult String :=
  if ver session_id = false then
    ⟨.error (.invalidToken "Invalid session ID."), s, []⟩
  else
    match dictGet session_id s.sessions with
    | none =>
      ⟨.error (.sessionNotFound
          ("Session with ID '" ++ session_id ++ "' not found or already closed.")),
       s, []⟩
    | some h =>
      match termRes h with
      | .ok _ =>
        ⟨.ok ("Session '" ++ session_id ++ "' closed successfully."),
         { closeMidState h s with
             sessions := dictDel session_id (closeMidState h s).sessions },
         [.termCall h, .removeEntry session_id]⟩
      | .error e =>
        ⟨.error (.backendFailure
            ("An error occurred while closing session '" ++ session_id ++ "': " ++ e)),
         { s with handles := updHandles s.handles h failState },
         [.termCall h]⟩

/-- The registry invariant claimed by the spec: the sessions map never
contains an entry whose handle is terminated. -/
def mapNoTerminated (s : ServerState) : Prop :=
  ∀ p ∈ s.sessions, s.handles p.2 ≠ HState.terminated

instance (s : ServerState) : Decidable (mapNoTerminated s) := by
  unfold mapNoTerminated
  exact List.decidableBAll _ _

deriving instance DecidableEq for Except

/-- A registry state holding one live session under a well-formed token. -/
def sampleState : ServerState :=
  ⟨[("fox-wolf-bear-lion", 0)], fun _ => HState.live, 1⟩

/-- The registry state at server start: the `sessions` dict is empty. -/
def emptyState : ServerState :=
  ⟨[], fun _ => HState.live, 0⟩

/-- Whether, in a backend-event trace, an entry removal occurs strictly
before a later backend terminate call. -/
def removalBeforeTerminate : List BEv → Bool
  | [] => false
  | BEv.removeEntry _ :: rest =>
      rest.any fun e => match e with | BEv.termCall _ => true | _ => false
  | _ :: rest => removalBeforeTerminate rest

/-! ### Lemmas about splitting and joining on the delimiter -/

theorem splitOnCharList_ne_nil (c : Char) (l : List Char) :
    splitOnCharList c l ≠ [] := by
  cases l with
  | nil => simp [splitOnCharList]
  | cons x xs =>
    simp only [splitOnCharList]
    cases h : splitOnCharList c xs with
    | nil => simp
    | cons w ws =>
      by_cases hx : x = c <;> simp [hx]

theorem splitOnCharList_no_delim (c : Char) (w : List Char) (hw : c ∉ w) :
    splitOnCharList c w = [w] := by
  induction w with
  | nil => rfl
  | cons x xs ih =>
    have hx : x ≠ c := fun h => hw (h ▸ List.mem_cons_self x xs)
    have hxs : c ∉ xs := fun h => hw (List.mem_cons_of_mem x h)
    simp [splitOnCharList, ih hxs, hx]

theorem splitOnCharList_append_cons (c : Char) (w r : List Char) (hw : c ∉ w) :
    splitOnCharList c (w ++ c :: r) = w :: splitOnCharList c r := by
  induction w with
  | nil =>
    simp only [List.nil_append, splitOnCharList]
    cases h : splitOnCharList c r with
    | nil => exact absurd h (splitOnCharList_ne_nil c r)
    | cons u us => simp
  | cons x xs ih =>
    have hx : x ≠ c := fun h => hw (h ▸ List.mem_cons_self x xs)
    have hxs : c ∉ xs := fun h => hw (List.mem_cons_of_mem x h)
    rw [List.cons_append]
    simp only [splitOnCharList]
    rw [ih hxs]
    simp [hx]

theorem splitOnCharList_joinWith (c : Char) (ws : List (List Char))
    (hne : ws ≠ []) (hw : ∀ w ∈ ws, c ∉ w) :
    splitOnCharList c (joinWith c ws) = ws := by
  induction ws with
  | nil => exact absurd rfl hne
  | cons w ws ih =>
    cases ws with
    | nil => exact splitOnCharList_no_delim c w (hw w (by simp))
    | cons w2 ws2 =>
      have hjoin : joinWith c (w :: w2 :: ws2) = w ++ c :: joinWith c (w2 :: ws2) := rfl
      rw [hjoin, splitOnCharList_append_cons c w _ (hw w (by simp)),
        ih (by simp) (fun u hu => hw u (List.mem_cons_of_mem w hu))]

/-! ### Lemmas about the modelled token codec -/

theorem stringMk_data (s : String) : String.mk s.data = s := rfl

namespace AnimalIdGenerator

theorem wordAt_mem (i : Nat) : wordAt i ∈ vocabulary :=
  List.get_mem vocabulary _ _

theorem vocab_no_delim : ∀ w ∈ vocabulary, '-' ∉ w.data := by decide

theorem wordAt_no_delim (i : Nat) : '-' ∉ (wordAt i).data :=
  vocab_no_delim _ (wordAt_mem i)

/-- Round trip of the modelled codec: a freshly generated token verifies
under the same key for every keyed hash function, because the checksum word
is a deterministic function of the leading words and the key. -/
theorem verify_generate (kh : String → List String → Nat) (key : String)
    (d1 d2 d3 : Nat) :
    verify kh key (generate kh key d1 d2 d3) = true := by
  have hsplit :
      splitOnCharList '-'
        (joinWith '-' [(wordAt d1).data, (wordAt d2).data, (wordAt d3).data,
          (wordAt (kh key [wordAt d1, wordAt d2, wordAt d3])).data]) =
      [(wordAt d1).data, (wordAt d2).data, (wordAt d3).data,
        (wordAt (kh key [wordAt d1, wordAt d2, wordAt d3])).data] := by
    apply splitOnCharList_joinWith
    · simp
    · intro w hw
      simp only [List.mem_cons, List.not_mem_nil, or_false] at hw
      rcases hw with rfl | rfl | rfl | rfl <;> exact wordAt_no_delim _
  unfold generate verify
  simp only [stringMk_data, hsplit]
  simp [wordAt_mem]

end AnimalIdGenerator

/-! ### Lemmas about the dict model -/

theorem dictGet_mem {k : String} {v : Nat} :
    ∀ {l : List (String × Nat)}, dictGet k l = some v → (k, v) ∈ l := by
  intro l
  induction l with
  | nil => intro h; simp [dictGet] at h
  | cons p rest ih =>
    obtain ⟨k', v'⟩ := p
    intro h
    by_cases hk : k' = k
    · subst hk
      simp [dictGet] at h
      simp [h]
    · simp [dictGet, hk] at h
      exact List.mem_cons_of_mem _ (ih h)

theorem mem_dictDel {k : String} {p : String × Nat} :
    ∀ {l : List (String × Nat)}, p ∈ dictDel k l → p ∈ l := by
  intro l
  induction l with
  | nil => intro h; simp [dictDel] at h
  | cons q rest ih =>
    obtain ⟨k', v'⟩ := q
    intro h
    by_cases hk : k' = k
    · subst hk
      simp [dictDel] at h
      exact List.mem_cons_of_mem _ h
    · simp [dictDel, hk, List.mem_cons] at h
      rcases h with h | h
      · simp [h]
      · exact List.mem_cons_of_mem _ (ih h)

theorem dictDel_fst_ne {k : String} {p : String × Nat} :
    ∀ {l : List (String × Nat)}, (l.map Prod.fst).Nodup →
      p ∈ dictDel k l → p.1 ≠ k := by
  intro l
  induction l with
  | nil => intro _ h; simp [dictDel] at h
  | cons q rest ih =>
    obtain ⟨k', v'⟩ := q
    intro hk h
    simp only [List.map_cons, List.nodup_cons, List.mem_map] at hk
    by_cases hkk : k' = k
    · subst hkk
      simp [dictDel] at h
      intro hp
      exact hk.1 ⟨p, h, hp⟩
    · simp [dictDel, hkk, List.mem_cons] at h
      rcases h with h | h
      · rw [h]
        exact hkk
      · exact ih hk.2 h

theorem dictGet_eq_none_of_not_mem {k : String} :
    ∀ {l : List (String × Nat)}, k ∉ l.map Prod.fst → dictGet k l = none := by
  intro l
  induction l with
  | nil => intro _; rfl
  | cons q rest ih =>
    obtain ⟨k', v'⟩ := q
    intro hk
    simp only [List.map_cons, List.mem_cons] at hk
    push_neg at hk
    have hne : k' ≠ k := fun h => hk.1 h.symm
    simp only [dictGet, if_neg hne]
    exact ih hk.2

theorem dictGet_dictDel_self {k : String} :
    ∀ {l : List (String × Nat)}, (l.map Prod.fst).Nodup →
      dictGet k (dictDel k l) = none := by
  intro l
  induction l with
  | nil => intro _; rfl
  | cons q rest ih =>
    obtain ⟨k', v'⟩ := q
    intro hk
    simp only [List.map_cons, List.nodup_cons, List.mem_map] at hk
    by_cases hkk : k' = k
    · subst hkk
      simp only [dictDel, if_pos rfl]
      apply dictGet_eq_none_of_not_mem
      intro hmem
      rcases List.mem_map.mp hmem with ⟨p, hp, hfst⟩
      exact hk.1 ⟨p, hp, hfst⟩
    · simp only [dictDel, if_neg hkk, dictGet, if_neg hkk]
      exact ih hk.2

theorem mem_dictSet {k : String} {v : Nat} {p : String × Nat} :
    ∀ {l : List (String × Nat)}, p ∈ dictSet k v l → p = (k, v) ∨ p ∈ l := by
  intro l
  induction l with
  | nil => intro h; simp [dictSet] at h; exact Or.inl h
  | cons q rest ih =>
    obtain ⟨k', v'⟩ := q
    intro h
    by_cases hk : k' = k
    · subst hk
      simp [dictSet, List.mem_cons] at h
      rcases h with h | h
      · exact Or.inl (by simp [h])
      · exact Or.inr (List.mem_cons_of_mem _ h)
    · simp [dictSet, hk, List.mem_cons] at h
      rcases h with h | h
      · exact Or.inr (by simp [h])
      · rcases ih h with h' | h'
        · exact Or.inl h'
        · exact Or.inr (List.mem_cons_of_mem _ h')

theorem snd_nodup_inj {p q : String × Nat} :
    ∀ {l : List (String × Nat)}, (l.map Prod.snd).Nodup →
      p ∈ l → q ∈ l → p.2 = q.2 → p = q := by
  intro l
  induction l with
  | nil => intro _ hp; simp at hp
  | cons r rest ih =>
    intro hh hp hq hpq
    simp only [List.map_cons, List.nodup_cons, List.mem_map] at hh
    simp only [List.mem_cons] at hp hq
    rcases hp with rfl | hp <;> rcases hq with rfl | hq
    · rfl
    · exact absurd ⟨q, hq, hpq.symm⟩ hh.1
    · exact absurd ⟨p, hp, hpq⟩ hh.1
    · exact ih hh.2 hp hq hpq

/-! ### Lemmas about the registry operations -/

/-- `execute_mathematica_code` returns the registry state unchanged on every
path (lines 136-154 contain no assignment to `sessions`). -/
theorem execute_st_eq (ver : String → Bool)
    (evalRes : Nat → String → Except String String)
    (tok code : String) (s : ServerState) :
    (execute_mathematica_code ver evalRes tok code s).st = s := by
  unfold execute_mathematica_code
  split
  · rfl
  · split
    · rfl
    · split <;> rfl

/-- `create_mathematica_session` preserves the no-terminated-handle
invariant: the inserted handle is live and no existing handle is
terminated by the call. -/
theorem create_st_mapNoTerminated (tok : String) (openRes : Except String Unit)
    (s : ServerState) (hinv : mapNoTerminated s) :
    mapNoTerminated (create_mathematica_session tok openRes s).st := by
  unfold mapNoTerminated at hinv ⊢
  unfold create_mathematica_session
  cases openRes with
  | error e => exact hinv
  | ok u =>
    intro p hp
    simp only at hp
    rcases mem_dictSet hp with rfl | hpl
    · simp [updHandles]
    · simp only [updHandles]
      by_cases hph : p.2 = s.nextHandle
      · simp [hph]
      · simp only [if_neg hph]
        exact hinv p hpl

/-- `close_mathematica_session` preserves the no-terminated-handle invariant
at call granularity when a failed backend terminate leaves the handle live:
on terminate success the terminated handle's entry is removed before the
call returns, and on terminate failure the retained entry's handle is still
live. -/
theorem close_st_mapNoTerminated (ver : String → Bool)
    (termRes : Nat → Except String Unit) (tok : String) (s : ServerState)
    (hk : (s.sessions.map Prod.fst).Nodup)
    (hh : (s.sessions.map Prod.snd).Nodup)
    (hinv : mapNoTerminated s) :
    mapNoTerminated (close_mathematica_session ver termRes .live tok s).st := by
  unfold mapNoTerminated at hinv ⊢
  unfold close_mathematica_session
  by_cases hv : ver tok = false
  · simpa [hv] using hinv
  · simp only [if_neg hv]
    cases hg : dictGet tok s.sessions with
    | none => simpa using hinv
    | some h =>
      simp only
      cases ht : termRes h with
      | ok u =>
        intro p hp
        simp only [closeMidState] at hp ⊢
        have hpd : p ∈ dictDel tok s.sessions := hp
        have hpl : p ∈ s.sessions := mem_dictDel hpd
        have hpk : p.1 ≠ tok := dictDel_fst_ne hk hpd
        have hmem : (tok, h) ∈ s.sessions := dictGet_mem hg
        have hph : p.2 ≠ h := by
          intro he
          have heq := snd_nodup_inj hh hpl hmem he
          exact hpk (congrArg Prod.fst heq)
        simp only [updHandles, if_neg hph]
        exact hinv p hpl
      | error e =>
        intro p hp
        simp only at hp
        simp only [updHandles]
        by_cases hph : p.2 = h
        · simp [hph]
        · simp only [if_neg hph]
          exact hinv p hp

/-- Characterization of a successful `close_mathematica_session` call: the
token verified, it was mapped to a handle whose terminate succeeded, and the
resulting sessions map is the original with the token's entry deleted. -/
theorem close_ok_inv {ver : String → Bool} {termRes : Nat → Except String Unit}
    {failState : HState} {tok m : String} {s : ServerState}
    (hok : (close_mathematica_session ver termRes failState tok s).res = .ok m) :
    ver tok = true ∧
      ∃ h, dictGet tok s.sessions = some h ∧ termRes h = .ok () ∧
        (close_mathematica_session ver termRes failState tok s).st.sessions =
          dictDel tok s.sessions := by
  unfold close_mathematica_session at hok ⊢
  by_cases hv : ver tok = false
  · simp [hv] at hok
  · have hv' : ver tok = true := by
      cases hvv : ver tok
      · exact absurd hvv hv
      · rfl
    refine ⟨hv', ?_⟩
    simp only [if_neg hv] at hok ⊢
    cases hg : dictGet tok s.sessions with
    | none => simp [hg] at hok
    | some h =>
      simp only [hg] at hok ⊢
      cases ht : termRes h with
      | ok u =>
        refine ⟨h, rfl, ?_, ?_⟩
        · cases u
          exact ht
        · simp [ht, closeMidState]
      | error e => simp [ht] at hok

/-! ### The claims -/

/-- C1: the claim that the sessions map never contains a terminated handle
at any caller-observable point — termination and removal atomic even when
the backend terminate fails — is false of the source.  The source holds no
lock and runs `session.terminate()` (line 184) before
`del sessions[session_id]` (line 185), so at the observable point between
the two statements the map still holds the token of an already-terminated
handle (`closeMidState`); and when `terminate()` raises, the `del` never
runs (lines 187-190 re-raise instead), so a handle that the failed
terminate left dead stays in the map after the call returns. -/
theorem C1_counterexample :
    mapNoTerminated sampleState ∧
    ¬ mapNoTerminated (closeMidState 0 sampleState) ∧
    (close_mathematica_session (fun _ => true)
        (fun _ => Except.error "kernel did not stop") HState.terminated
        "fox-wolf-bear-lion" sampleState).res =
      Except.error (Err.backendFailure
        "An error occurred while closing session 'fox-wolf-bear-lion': kernel did not stop") ∧
    ¬ mapNoTerminated (close_mathematica_session (fun _ => true)
        (fun _ => Except.error "kernel did not stop") HState.terminated
        "fox-wolf-bear-lion" sampleState).st := by
  decide

/-- C1 (amended): at registry-call granularity the invariant is preserved by
all three operations, provided a failed backend terminate leaves the handle
live: a successful close terminates the handle and removes its entry within
the same call, a failed terminate retains the entry with a live handle,
create inserts only live handles, and execute never mutates the map. -/
theorem C1_amended_invariant_preserved (ver : String → Bool)
    (evalRes : Nat → String → Except String String)
    (termRes : Nat → Except String Unit)
    (openRes : Except String Unit) (newTok tok code : String) (s : ServerState)
    (hk : (s.sessions.map Prod.fst).Nodup)
    (hh : (s.sessions.map Prod.snd).Nodup)
    (hinv : mapNoTerminated s) :
    mapNoTerminated (create_mathematica_session newTok openRes s).st ∧
    mapNoTerminated (execute_mathematica_code ver evalRes tok code s).st ∧
    mapNoTerminated (close_mathematica_session ver termRes HState.live tok s).st :=
  ⟨create_st_mapNoTerminated newTok openRes s hinv,
   by rw [execute_st_eq]; exact hinv,
   close_st_mapNoTerminated ver termRes tok s hk hh hinv⟩

/-- C1 (amended), witness: the amended preservation theorem applied to the
one-session sample state with a successful backend terminate. -/
theorem C1_amended_witness :
    ((sampleState.sessions.map Prod.fst).Nodup ∧
      (sampleState.sessions.map Prod.snd).Nodup ∧ mapNoTerminated sampleState) ∧
    mapNoTerminated (close_mathematica_session (fun _ => true)
        (fun _ => Except.ok ()) HState.live "fox-wolf-bear-lion" sampleState).st :=
  ⟨⟨by decide, by decide, by decide⟩,
   (C1_amended_invariant_preserved (fun _ => true) (fun _ _ => Except.ok "4")
      (fun _ => Except.ok ()) (Except.ok ()) "bee-sloth-auk-mole"
      "fox-wolf-bear-lion" "1+1" sampleState (by decide) (by decide) (by decide)).2.2⟩

/-- C2: the claim that close removes the map entry first and performs the
backend terminate only after the removal is false of the source: on the
success path the backend-event trace is terminate first (line 184), removal
second (line 185) — with both precondition checks passing and the call
returning success, no removal precedes the terminate call. -/
theorem C2_counterexample :
    (close_mathematica_session (fun _ => true) (fun _ => Except.ok ())
        HState.live "fox-wolf-bear-lion" sampleState).res =
      Except.ok "Session 'fox-wolf-bear-lion' closed successfully." ∧
    (close_mathematica_session (fun _ => true) (fun _ => Except.ok ())
        HState.live "fox-wolf-bear-lion" sampleState).tr =
      [BEv.termCall 0, BEv.removeEntry "fox-wolf-bear-lion"] ∧
    removalBeforeTerminate (close_mathematica_session (fun _ => true)
        (fun _ => Except.ok ()) HState.live "fox-wolf-bear-lion" sampleState).tr = false := by
  decide

/-- C2 (amended): after both precondition checks pass, close performs the
backend terminate call first and removes the map entry only after the
terminate call returns successfully; when terminate raises, the entry is
not removed at all. -/
theorem C2_amended_terminate_then_remove (ver : String → Bool)
    (termRes : Nat → Except String Unit) (failState : HState)
    (tok : String) (s : ServerState) (h : Nat)
    (hv : ver tok = true) (hg : dictGet tok s.sessions = some h) :
    (termRes h = Except.ok () →
      (close_mathematica_session ver termRes failState tok s).tr =
        [BEv.termCall h, BEv.removeEntry tok] ∧
      removalBeforeTerminate
        (close_mathematica_session ver termRes failState tok s).tr = false) ∧
    (∀ e, termRes h = Except.error e →
      (close_mathematica_session ver termRes failState tok s).tr = [BEv.termCall h]) := by
  constructor
  · intro ht
    have htr : (close_mathematica_session ver termRes failState tok s).tr =
        [BEv.termCall h, BEv.removeEntry tok] := by
      simp [close_mathematica_session, hv, hg, ht]
    refine ⟨htr, ?_⟩
    rw [htr]
    rfl
  · intro e ht
    simp [close_mathematica_session, hv, hg, ht]

/-- C2 (amended), witness: the amended trace-order theorem applied to the
one-session sample state, for a succeeding and for a failing terminate. -/
theorem C2_amended_witness :
    ((fun (_ : String) => true) "fox-wolf-bear-lion" = true ∧
      dictGet "fox-wolf-bear-lion" sampleState.sessions = some 0) ∧
    (close_mathematica_session (fun _ => true) (fun _ => Except.ok ())
        HState.live "fox-wolf-bear-lion" sampleState).tr =
      [BEv.termCall 0, BEv.removeEntry "fox-wolf-bear-lion"] :=
  ⟨⟨by decide, by decide⟩,
   ((C2_amended_terminate_then_remove (fun _ => true) (fun _ => Except.ok ())
      HState.live "fox-wolf-bear-lion" sampleState 0 (by decide) (by decide)).1 rfl).1⟩

/-- C3: execute and close perform the same two precondition checks in the
same order.  When token verification fails, both raise the invalid-token
`ValueError` (lines 137-138 and 175-176) with the registry state unchanged
and no backend event — regardless of the map's content, so the verify check
comes first.  When verification passes but the token is absent from the
map, both raise the session-not-found `ValueError` (lines 141-145 and
178-180), again with no state change and no backend event. -/
theorem C3_precondition_checks (ver : String → Bool)
    (evalRes : Nat → String → Except String String)
    (termRes : Nat → Except String Unit) (failState : HState)
    (tok code : String) (s : ServerState) :
    (ver tok = false →
      execute_mathematica_code ver evalRes tok code s =
        ⟨Except.error (Err.invalidToken
          "Invalid session ID. It might be malformed or tampered with."), s, []⟩ ∧
      close_mathematica_session ver termRes failState tok s =
        ⟨Except.error (Err.invalidToken "Invalid session ID."), s, []⟩) ∧
    (ver tok = true → dictGet tok s.sessions = none →
      execute_mathematica_code ver evalRes tok code s =
        ⟨Except.error (Err.sessionNotFound
          ("Session with ID '" ++ tok ++ "' not found or has been closed.")), s, []⟩ ∧
      close_mathematica_session ver termRes failState tok s =
        ⟨Except.error (Err.sessionNotFound
          ("Session with ID '" ++ tok ++ "' not found or already closed.")), s, []⟩) := by
  constructor
  · intro hv
    constructor <;> simp [execute_mathematica_code, close_mathematica_session, hv]
  · intro hv hg
    constructor <;> simp [execute_mathematica_code, close_mathematica_session, hv, hg]

/-- C3, witness: the precondition theorem applied to a failing-verification
token on a nonempty map, and to a verifying token absent from the map. -/
theorem C3_witness :
    ((fun t => t == "fox-wolf-bear-lion") "tampered-token" = false ∧
      (execute_mathematica_code (fun t => t == "fox-wolf-bear-lion")
          (fun _ _ => Except.ok "4") "tampered-token" "1+1" sampleState).res =
        Except.error (Err.invalidToken
          "Invalid session ID. It might be malformed or tampered with.")) ∧
    ((fun t => t == "fox-wolf-bear-lion") "fox-wolf-bear-lion" = true ∧
      dictGet "fox-wolf-bear-lion" emptyState.sessions = none ∧
      (close_mathematica_session (fun t => t == "fox-wolf-bear-lion")
          (fun _ => Except.ok ()) HState.live "fox-wolf-bear-lion" emptyState).res =
        Except.error (Err.sessionNotFound
          "Session with ID 'fox-wolf-bear-lion' not found or already closed.")) := by
  constructor
  · refine ⟨by decide, ?_⟩
    have h := ((C3_precondition_checks (fun t => t == "fox-wolf-bear-lion")
      (fun _ _ => Except.ok "4") (fun _ => Except.ok ()) HState.live
      "tampered-token" "1+1" sampleState).1 (by decide)).1
    rw [h]
  · refine ⟨by decide, by decide, ?_⟩
    have h := ((C3_precondition_checks (fun t => t == "fox-wolf-bear-lion")
      (fun _ _ => Except.ok "4") (fun _ => Except.ok ()) HState.live
      "fox-wolf-bear-lion" "1+1" emptyState).2 (by decide) (by decide)).2
    rw [h]
    decide

/-- C4: the per-token lifecycle is terminal.  After a close call returns
success, the token's entry is gone, so a subsequent execute and a
subsequent close on the same token both fail with the session-not-found
error; and a close on a token that verifies but is absent from the map
(never created or already closed) raises rather than silently
succeeding. -/
theorem C4_lifecycle (ver : String → Bool)
    (evalRes : Nat → String → Except String String)
    (termRes : Nat → Except String Unit) (failState : HState)
    (tok code m : String) (s : ServerState)
    (hk : (s.sessions.map Prod.fst).Nodup)
    (hok : (close_mathematica_session ver termRes failState tok s).res = Except.ok m) :
    (execute_mathematica_code ver evalRes tok code
        (close_mathematica_session ver termRes failState tok s).st).res =
      Except.error (Err.sessionNotFound
        ("Session with ID '" ++ tok ++ "' not found or has been closed.")) ∧
    (close_mathematica_session ver termRes failState tok
        (close_mathematica_session ver termRes failState tok s).st).res =
      Except.error (Err.sessionNotFound
        ("Session with ID '" ++ tok ++ "' not found or already closed.")) ∧
    (∀ s' : ServerState, dictGet tok s'.sessions = none →
      (close_mathematica_session ver termRes failState tok s').res =
        Except.error (Err.sessionNotFound
          ("Session with ID '" ++ tok ++ "' not found or already closed."))) := by
  obtain ⟨hv, h, hg, ht, hsess⟩ := close_ok_inv hok
  have hnone : dictGet tok
      (close_mathematica_session ver termRes failState tok s).st.sessions = none := by
    rw [hsess]
    exact dictGet_dictDel_self hk
  refine ⟨?_, ?_, ?_⟩
  · simp [execute_mathematica_code, hv, hnone]
  · generalize hs2 : (close_mathematica_session ver termRes failState tok s).st = s2 at hnone ⊢
    simp [close_mathematica_session, hv, hnone]
  · intro s' hg'
    simp [close_mathematica_session, hv, hg']

/-- C4, witness: create-free lifecycle run on the sample state — the close
succeeds, and the lifecycle theorem yields the two subsequent
session-not-found failures. -/
theorem C4_witness :
    ((sampleState.sessions.map Prod.fst).Nodup ∧
      (close_mathematica_session (fun _ => true) (fun _ => Except.ok ())
          HState.live "fox-wolf-bear-lion" sampleState).res =
        Except.ok "Session 'fox-wolf-bear-lion' closed successfully.") ∧
    (execute_mathematica_code (fun _ => true) (fun _ _ => Except.ok "4")
        "fox-wolf-bear-lion" "1+1"
        (close_mathematica_session (fun _ => true) (fun _ => Except.ok ())
          HState.live "fox-wolf-bear-lion" sampleState).st).res =
      Except.error (Err.sessionNotFound
        "Session with ID 'fox-wolf-bear-lion' not found or has been closed.") := by
  constructor
  · exact ⟨by decide, by decide⟩
  · have h := (C4_lifecycle (fun _ => true) (fun _ _ => Except.ok "4")
      (fun _ => Except.ok ()) HState.live "fox-wolf-bear-lion" "1+1"
      "Session 'fox-wolf-bear-lion' closed successfully." sampleState
      (by decide) (by decide)).1
    rw [h]
    decide

/-- C5: when the backend session-open call fails during create, the
exception is wrapped and re-raised (line 109), the registry state is
unchanged — in particular a token absent before the call is still absent
after it — and the freshly generated token is never returned. -/
theorem C5_create_failure_atomic (tok e : String) (s : ServerState) :
    (create_mathematica_session tok (Except.error e) s).res =
      Except.error (Err.backendFailure
        ("Failed to create Wolfram Language session: " ++ e)) ∧
    (create_mathematica_session tok (Except.error e) s).st = s ∧
    (dictGet tok s.sessions = none →
      dictGet tok (create_mathematica_session tok (Except.error e) s).st.sessions = none) :=
  ⟨rfl, rfl, fun h => h⟩

/-- C5, witness: the create-failure theorem applied to a fresh token on the
empty start state. -/
theorem C5_witness :
    dictGet "fox-wolf-bear-lion" emptyState.sessions = none ∧
    dictGet "fox-wolf-bear-lion"
      (create_mathematica_session "fox-wolf-bear-lion"
        (Except.error "kernel not found") emptyState).st.sessions = none :=
  ⟨by decide,
   (C5_create_failure_atomic "fox-wolf-bear-lion" "kernel not found" emptyState).2.2
     (by decide)⟩

/-- C6: the claim that execute returns the backend's result or failure
unchanged is false on the failure half: the source wraps a backend
evaluation failure in a `RuntimeError` whose message adds the session
context (lines 151-154), so the caller does not receive the backend failure
unchanged. -/
theorem C6_counterexample :
    dictGet "fox-wolf-bear-lion" sampleState.sessions = some 0 ∧
    (execute_mathematica_code (fun _ => true) (fun _ _ => Except.error "boom")
        "fox-wolf-bear-lion" "1+1" sampleState).res ≠
      Except.error (Err.backendFailure "boom") ∧
    (execute_mathematica_code (fun _ => true) (fun _ _ => Except.error "boom")
        "fox-wolf-bear-lion" "1+1" sampleState).res =
      Except.error (Err.backendFailure
        "An error occurred during execution in session 'fox-wolf-bear-lion': boom") := by
  decide

/-- C6 (amended): when both precondition checks pass, execute forwards the
caller's code string verbatim to the backend handle and returns a backend
success unchanged; a backend failure is re-raised wrapped with the session
context; and execute never mutates the registry state on any path. -/
theorem C6_amended_execute_forwarding (ver : String → Bool)
    (evalRes : Nat → String → Except String String)
    (tok code : String) (s : ServerState) (h : Nat)
    (hv : ver tok = true) (hg : dictGet tok s.sessions = some h) :
    (∀ r, evalRes h code = Except.ok r →
      execute_mathematica_code ver evalRes tok code s =
        ⟨Except.ok r, s, [BEv.evalCall h code]⟩) ∧
    (∀ e, evalRes h code = Except.error e →
      execute_mathematica_code ver evalRes tok code s =
        ⟨Except.error (Err.backendFailure
          ("An error occurred during execution in session '" ++ tok ++ "': " ++ e)),
         s, [BEv.evalCall h code]⟩) ∧
    (∀ (ver' : String → Bool) evalRes' tok' code' s',
      (execute_mathematica_code ver' evalRes' tok' code' s').st = s') := by
  refine ⟨?_, ?_, fun v e t c st => execute_st_eq v e t c st⟩
  · intro r hr
    simp [execute_mathematica_code, hv, hg, hr]
  · intro e he
    simp [execute_mathematica_code, hv, hg, he]

/-- C6 (amended), witness: the forwarding theorem applied to the sample
state with a succeeding backend evaluation. -/
theorem C6_amended_witness :
    ((fun (_ : String) => true) "fox-wolf-bear-lion" = true ∧
      dictGet "fox-wolf-bear-lion" sampleState.sessions = some 0 ∧
      (fun (_ : Nat) (_ : String) => (Except.ok "4" : Except String String)) 0 "1+1" =
        Except.ok "4") ∧
    execute_mathematica_code (fun _ => true) (fun _ _ => Except.ok "4")
        "fox-wolf-bear-lion" "1+1" sampleState =
      ⟨Except.ok "4", sampleState, [BEv.evalCall 0 "1+1"]⟩ :=
  ⟨⟨by decide, by decide, by decide⟩,
   (C6_amended_execute_forwarding (fun _ => true) (fun _ _ => Except.ok "4")
      "fox-wolf-bear-lion" "1+1" sampleState 0 (by decide) (by decide)).1 "4" rfl⟩

/-- C7: every backend failure during evaluate or terminate is caught at the
boundary and re-raised as a `RuntimeError` whose message names the
operation and the token together with the backend's own message
(lines 151-154 and 187-190); none is swallowed — the operation's result is
that error — and none is retried: the trace holds exactly one backend
call. -/
theorem C7_backend_failures_wrapped (ver : String → Bool)
    (evalRes : Nat → String → Except String String)
    (termRes : Nat → Except String Unit) (failState : HState)
    (tok code : String) (s : ServerState) (h : Nat)
    (hv : ver tok = true) (hg : dictGet tok s.sessions = some h) :
    (∀ e, evalRes h code = Except.error e →
      (execute_mathematica_code ver evalRes tok code s).res =
        Except.error (Err.backendFailure
          ("An error occurred during execution in session '" ++ tok ++ "': " ++ e)) ∧
      (execute_mathematica_code ver evalRes tok code s).tr = [BEv.evalCall h code]) ∧
    (∀ e, termRes h = Except.error e →
      (close_mathematica_session ver termRes failState tok s).res =
        Except.error (Err.backendFailure
          ("An error occurred while closing session '" ++ tok ++ "': " ++ e)) ∧
      (close_mathematica_session ver termRes failState tok s).tr = [BEv.termCall h]) := by
  constructor
  · intro e he
    constructor <;> simp [execute_mathematica_code, hv, hg, he]
  · intro e ht
    constructor <;> simp [close_mathematica_session, hv, hg, ht]

/-- C7, witness: the wrapping theorem applied to the sample state with a
failing backend evaluation and a failing backend terminate. -/
theorem C7_witness :
    ((fun (_ : String) => true) "fox-wolf-bear-lion" = true ∧
      dictGet "fox-wolf-bear-lion" sampleState.sessions = some 0) ∧
    (execute_mathematica_code (fun _ => true) (fun _ _ => Except.error "boom")
        "fox-wolf-bear-lion" "1+1" sampleState).res =
      Except.error (Err.backendFailure
        "An error occurred during execution in session 'fox-wolf-bear-lion': boom") ∧
    (close_mathematica_session (fun _ => true)
        (fun _ => Except.error "kernel did not stop") HState.live
        "fox-wolf-bear-lion" sampleState).res =
      Except.error (Err.backendFailure
        "An error occurred while closing session 'fox-wolf-bear-lion': kernel did not stop") := by
  refine ⟨⟨by decide, by decide⟩, ?_, ?_⟩
  · have h := ((C7_backend_failures_wrapped (fun _ => true)
      (fun _ _ => Except.error "boom") (fun _ => Except.error "kernel did not stop")
      HState.live "fox-wolf-bear-lion" "1+1" sampleState 0
      (by decide) (by decide)).1 "boom" rfl).1
    rw [h]
    decide
  · have h := ((C7_backend_failures_wrapped (fun _ => true)
      (fun _ _ => Except.error "boom") (fun _ => Except.error "kernel did not stop")
      HState.live "fox-wolf-bear-lion" "1+1" sampleState 0
      (by decide) (by decide)).2 "kernel did not stop" rfl).1
    rw [h]
    decide

/-- C8: the claim that a backend-location override from the environment is
validated as existing, accessible and executable — with startup failing on
a bad override and discovery delegated entirely to the backend when none is
supplied — is false of the source: `find_wolfram_kernel` reads no override
variable and performs its own discovery, probing a hardcoded per-OS
candidate list with a bare existence check (`os.path.exists`, line 68, no
executability check) and never failing startup.  Concretely, on Linux with
no override anywhere in the environment, a standard path that exists is
selected by the subsystem itself instead of being delegated to the backend
collaborator. -/
theorem C8_counterexample :
    find_wolfram_kernel "Linux" "C:\\Program Files"
        (fun p => p == "/usr/local/Wolfram/Mathematica/13.3/Executables/WolframKernel") =
      some "/usr/local/Wolfram/Mathematica/13.3/Executables/WolframKernel" ∧
    find_wolfram_kernel "Linux" "C:\\Program Files"
        (fun p => p == "/usr/local/Wolfram/Mathematica/13.3/Executables/WolframKernel") ≠
      none := by
  decide

/-- C8 (amended): at startup the backend location is discovered by probing a
fixed per-OS candidate list for existence: the first existing candidate is
returned, `none` is returned exactly when no candidate exists (discovery is
then left to the backend collaborator), any returned path is one of the
candidates and passed the existence probe, and the discovery never fails
startup (it is a total function into `Option`). -/
theorem C8_amended_kernel_discovery (system programFiles : String)
    (pathExists : String → Bool) :
    (find_wolfram_kernel system programFiles pathExists = none ↔
      ∀ p ∈ potentialPaths system programFiles, pathExists p = false) ∧
    (∀ p, find_wolfram_kernel system programFiles pathExists = some p →
      pathExists p = true ∧ p ∈ potentialPaths system programFiles) := by
  constructor
  · unfold find_wolfram_kernel
    rw [List.find?_eq_none]
    constructor
    · intro hnone p hp
      simpa using hnone p hp
    · intro hall p hp
      simp [hall p hp]
  · intro p hfind
    exact ⟨List.find?_some hfind, List.mem_of_find?_eq_some hfind⟩

/-- C8 (amended), witness: the discovery theorem applied on Linux to a probe
under which only the 14.0 path exists. -/
theorem C8_amended_witness :
    find_wolfram_kernel "Linux" "C:\\Program Files"
        (fun p => p == "/usr/local/Wolfram/Mathematica/14.0/Executables/WolframKernel") =
      some "/usr/local/Wolfram/Mathematica/14.0/Executables/WolframKernel" ∧
    (fun p => p == "/usr/local/Wolfram/Mathematica/14.0/Executables/WolframKernel")
        "/usr/local/Wolfram/Mathematica/14.0/Executables/WolframKernel" = true ∧
    "/usr/local/Wolfram/Mathematica/14.0/Executables/WolframKernel" ∈
      potentialPaths "Linux" "C:\\Program Files" := by
  refine ⟨by decide, ?_, ?_⟩
  · exact ((C8_amended_kernel_discovery "Linux" "C:\\Program Files"
      (fun p => p == "/usr/local/Wolfram/Mathematica/14.0/Executables/WolframKernel")).2
      "/usr/local/Wolfram/Mathematica/14.0/Executables/WolframKernel" (by decide)).1
  · exact ((C8_amended_kernel_discovery "Linux" "C:\\Program Files"
      (fun p => p == "/usr/local/Wolfram/Mathematica/14.0/Executables/WolframKernel")).2
      "/usr/local/Wolfram/Mathematica/14.0/Executables/WolframKernel" (by decide)).2

/-- C9: for every secret key, every keyed hash function and every random
draw, verifying a freshly generated token under the same key returns true:
the checksum word is a deterministic function of the leading words and the
key, so verification recomputes exactly the word generation appended. -/
theorem C9_verify_generate_roundtrip (kh : String → List String → Nat)
    (key : String) (d1 d2 d3 : Nat) :
    AnimalIdGenerator.verify kh key
      (AnimalIdGenerator.generate kh key d1 d2 d3) = true :=
  AnimalIdGenerator.verify_generate kh key d1 d2 d3

/-- C10: when the `ANIMALID_SECRET_KEY` environment variable is absent, the
process does not refuse to start: line 25 silently falls back to the fixed
literal key, lines 26-29 print the warning, and every session token for the
process lifetime is minted and verified under that publicly known key. -/
theorem C10_default_key_fallback :
    loadSecretKey none = "default-secret-key-for-dev" ∧
    defaultKeyWarning none = true ∧
    ∀ (kh : String → List String → Nat) (d1 d2 d3 : Nat),
      AnimalIdGenerator.verify kh (loadSecretKey none)
        (AnimalIdGenerator.generate kh (loadSecretKey none) d1 d2 d3) = true :=
  ⟨rfl, by decide,
   fun kh d1 d2 d3 => AnimalIdGenerator.verify_generate kh _ d1 d2 d3⟩

end MathematicaMCP
